import Mathlib

/-
  Formal model of the SmelterOS / Chicken Hawk core subsystems
  (src/chickenhawk): TokenCounter, OracleGatekeeper, StateManager,
  HITLController, and the HITL-rejection branch of the engine loop.

  Modelling conventions:
  * Python `int` is modelled as `Int` (or `Nat` where the quantity is a
    count that the code only ever increments from zero);
  * Python `float` ratios and thresholds are modelled as `Rat`;
  * Python dicts are association lists in insertion order;
  * Python `Optional[...]` is `Option`;
  * the f-string failure reasons of the ORACLE gates are modelled as a
    structured value carrying the interpolated data (every such string is
    non-empty, so only `None` is falsy for Python's `or`).
-/

/- ═══════════ TokenCounter (src/chickenhawk/core/token_counter.py) ═══════════ -/

/-- Model of the `TokenCounter` class state: the configured ceiling
`max_tokens` (Python `int`, default 128000), the accumulated estimate
`current_tokens`, and the accumulated `context_buffer`. -/
structure TokenCounter where
  max_tokens : ℤ
  current_tokens : ℕ
  context_buffer : String
deriving Repr, DecidableEq

namespace TokenCounter

/-- Model of `TokenCounter._estimate_tokens`: Python `len(text) // 4`
(floor division). -/
def estimate_tokens (text : String) : ℕ :=
  text.length / 4

/-- Model of `TokenCounter.add`: adds the estimate to `current_tokens`,
appends `text` to `context_buffer`, and returns the updated counter
together with the new count (the method's return value). -/
def add (c : TokenCounter) (text : String) : TokenCounter × ℕ :=
  let tokens := estimate_tokens text
  let c := { c with current_tokens := c.current_tokens + tokens,
                    context_buffer := c.context_buffer ++ text }
  (c, c.current_tokens)

/-- Model of `TokenCounter.get_usage_ratio`: `current / max` when
`max_tokens > 0`, else `0`. -/
def get_usage_ratio (c : TokenCounter) : ℚ :=
  if 0 < c.max_tokens then (c.current_tokens : ℚ) / (c.max_tokens : ℚ) else 0

end TokenCounter

/- ═══════════ Theorems for claims C3 and C9 ═══════════ -/

/-- C3 counterexample: `TokenCounter.add` does NOT increment the count by
`ceil(len(text)/4)`. On the 5-character text "hello" the code adds
`5 // 4 = 1` token while `ceil(5/4) = 2`. -/
theorem token_add_not_ceil_cx :
    (TokenCounter.add ⟨128000, 0, ""⟩ "hello").2 = 1 ∧
    ("hello".length + 4 - 1) / 4 = 2 ∧
    (TokenCounter.add ⟨128000, 0, ""⟩ "hello").2 ≠ ("hello".length + 4 - 1) / 4 := by
  refine ⟨rfl, rfl, ?_⟩
  decide

/-- C3 amended: for every string `text`, `TokenCounter.add text` appends
`text` to the context buffer and increments the current token count by
exactly `floor(len(text)/4)` (Python `len(text) // 4`), returning the
updated count. -/
theorem token_add_floor_increment (c : TokenCounter) (text : String) :
    (TokenCounter.add c text).1.context_buffer = c.context_buffer ++ text ∧
    (TokenCounter.add c text).2 = c.current_tokens + text.length / 4 ∧
    (TokenCounter.add c text).1.current_tokens = c.current_tokens + text.length / 4 ∧
    (TokenCounter.add c text).1.max_tokens = c.max_tokens := by
  refine ⟨rfl, rfl, rfl, rfl⟩

/-- Adding a sequence of texts to a counter (iterated `TokenCounter.add`,
keeping the updated counter). -/
def addAll (c : TokenCounter) (texts : List String) : TokenCounter :=
  texts.foldl (fun acc t => (TokenCounter.add acc t).1) c

/-- `add` never touches `max_tokens`, so neither does any sequence of
adds. -/
theorem addAll_max_tokens (c : TokenCounter) (texts : List String) :
    (addAll c texts).max_tokens = c.max_tokens := by
  induction texts generalizing c with
  | nil => rfl
  | cons t ts ih =>
      simpa [addAll, List.foldl_cons] using ih (TokenCounter.add c t).1

/-- C9 counterexample: the claim's "otherwise it returns current token
count divided by max_tokens" is false for a negative ceiling. A counter
constructed with `max_tokens = -5` that has absorbed the 12-character text
"abcdefghijkl" (3 tokens) has `max_tokens ≠ 0`, yet `get_usage_ratio`
returns `0` (the source guards with `max_tokens > 0`), not the claimed
`3 / (-5) ≠ 0`. -/
theorem usage_ratio_negative_ceiling_cx :
    (TokenCounter.add ⟨-5, 0, ""⟩ "abcdefghijkl").1.max_tokens = -5 ∧
    (TokenCounter.add ⟨-5, 0, ""⟩ "abcdefghijkl").1.max_tokens ≠ 0 ∧
    (TokenCounter.add ⟨-5, 0, ""⟩ "abcdefghijkl").1.current_tokens = 3 ∧
    TokenCounter.get_usage_ratio (TokenCounter.add ⟨-5, 0, ""⟩ "abcdefghijkl").1 = 0 ∧
    (((TokenCounter.add ⟨-5, 0, ""⟩ "abcdefghijkl").1.current_tokens : ℚ) /
        ((TokenCounter.add ⟨-5, 0, ""⟩ "abcdefghijkl").1.max_tokens : ℚ)) ≠ 0 := by
  refine ⟨rfl, by decide, rfl, rfl, ?_⟩
  show ((3 : ℕ) : ℚ) / ((-5 : ℤ) : ℚ) ≠ 0
  norm_num

/-- C9 amended: `get_usage_ratio` returns `0` whenever `max_tokens ≤ 0` —
in particular for `max_tokens = 0`, the division-by-zero guard — and this
holds regardless of how much text has been added; when `max_tokens > 0` it
returns `current_tokens / max_tokens`. (The source guards with
`max_tokens > 0`, not `max_tokens != 0`.) -/
theorem get_usage_ratio_nonpositive_guard (c : TokenCounter) (texts : List String) :
    (c.max_tokens = 0 → TokenCounter.get_usage_ratio (addAll c texts) = 0) ∧
    (c.max_tokens ≤ 0 → TokenCounter.get_usage_ratio (addAll c texts) = 0) ∧
    (0 < c.max_tokens →
      TokenCounter.get_usage_ratio c = (c.current_tokens : ℚ) / (c.max_tokens : ℚ)) := by
  have hmax : (addAll c texts).max_tokens = c.max_tokens :=
    addAll_max_tokens c texts
  refine ⟨?_, ?_, ?_⟩
  · intro h0
    unfold TokenCounter.get_usage_ratio
    rw [hmax, h0]
    simp
  · intro hle
    unfold TokenCounter.get_usage_ratio
    rw [hmax]
    rw [if_neg (not_lt.mpr hle)]
  · intro hpos
    unfold TokenCounter.get_usage_ratio
    rw [if_pos hpos]

/-- C9 amended witness: a zero ceiling yields ratio `0` after adds, a
negative ceiling yields ratio `0` after adds, and a positive ceiling
yields `current / max`. -/
theorem get_usage_ratio_nonpositive_guard_witness :
    TokenCounter.get_usage_ratio (addAll ⟨0, 37, "x"⟩ ["hello", "world"]) = 0 ∧
    TokenCounter.get_usage_ratio (addAll ⟨-5, 0, ""⟩ ["abcdefghijkl"]) = 0 ∧
    TokenCounter.get_usage_ratio ⟨2, 1, "abcd"⟩ =
      (((⟨2, 1, "abcd"⟩ : TokenCounter).current_tokens : ℚ) /
        ((⟨2, 1, "abcd"⟩ : TokenCounter).max_tokens : ℚ)) :=
  ⟨(get_usage_ratio_nonpositive_guard ⟨0, 37, "x"⟩ ["hello", "world"]).1 rfl,
   (get_usage_ratio_nonpositive_guard ⟨-5, 0, ""⟩ ["abcdefghijkl"]).2.1 (by decide),
   (get_usage_ratio_nonpositive_guard ⟨2, 1, "abcd"⟩ []).2.2 (by decide)⟩

/- ═══════════ ORACLE gates (src/chickenhawk/core/oracle_gates.py) ═══════════ -/

/-- Structured model of the f-string failure reasons produced by the
individual ORACLE gates. Each constructor carries the data the source
interpolates into the corresponding f-string. Every such Python string is
non-empty, so with respect to Python `or`-truthiness a recorded reason is
never falsy (only `None` is). -/
inductive FailReason where
  /-- Reason of a failing Technical gate: contains the parsed coverage. -/
  | technicalChecksFailed (coverage : ℚ)
  /-- Reason of a failing Virtue gate: contains score and threshold. -/
  | alignmentBelowThreshold (score threshold : ℚ)
  /-- Reason of a failing Ethics gate (a fixed string in the source). -/
  | charterViolationsDetected
  /-- Reason of a failing Effort gate: contains used and maximum tokens. -/
  | tokenBudgetExceeded (tokens_used max_tokens : ℕ)
deriving Repr, DecidableEq

/-- Python `failure_reason or gate.get("reason")` on `Optional` reasons:
keeps the left value unless it is `None`. (All reasons in this model stand
for non-empty strings, so string falsiness does not arise.) -/
def py_or (a b : Option FailReason) : Option FailReason :=
  match a with
  | some r => some r
  | none => b

@[simp] theorem py_or_none_left (b : Option FailReason) : py_or none b = b := rfl

@[simp] theorem py_or_some_left (r : FailReason) (b : Option FailReason) :
    py_or (some r) b = some r := rfl

@[simp] theorem py_or_none_right (a : Option FailReason) : py_or a none = a := by
  cases a <;> rfl

/-- Model of the `GateConfig` dataclass with the source defaults. -/
structure GateConfig where
  enabled : Bool := true
  threshold : ℚ := 0
  auto_fix : Bool := false
  max_attempts : ℕ := 3
deriving Repr, DecidableEq

/-- The `gates` table built by `OracleGatekeeper.__init__`: one
`GateConfig` per gate, in the fixed gate order. -/
structure Gates where
  technical : GateConfig
  virtue : GateConfig
  ethics : GateConfig
  judge : GateConfig
  strategy : GateConfig
  perception : GateConfig
  effort : GateConfig
deriving Repr, DecidableEq

/-- The default `gates` table of `OracleGatekeeper.__init__` (no config
file): Technical threshold 0.80, Virtue threshold 0.995, Perception
disabled, everything else enabled with threshold 0. The thresholds are
written with `mkRat` so that they evaluate by kernel reduction:
`mkRat 4 5 = 0.80` and `mkRat 199 200 = 0.995`. -/
def defaultGates : Gates where
  technical := { threshold := mkRat 4 5 }
  virtue := { threshold := mkRat 199 200 }
  ethics := {}
  judge := {}
  strategy := {}
  perception := { enabled := false }
  effort := {}

/-- Environment of one `verify_all` call: the outcomes of the external
processes and optional collaborators consulted by the gates.
`pytest = none` models `TimeoutExpired`/`FileNotFoundError`
(`pytest_passed = False` and the parsed coverage stays `0.0`); otherwise
the pair is (returncode == 0, coverage parsed from the TOTAL line, `0.0`
when no TOTAL line matched). `ruff = none` models an unavailable or
timed-out linter (treated as passing); otherwise returncode == 0.
`virtue = none` models `ImportError` of the vibe validator (fail-open);
otherwise the returned `alignment_score` and `tokens_used`.
`ethics = none` models `ImportError` of the charter checker (fail-open);
otherwise the returned `charter_safe` flag (a missing key defaults to
`False`, folded into the flag). -/
structure OracleEnv where
  pytest : Option (Bool × ℚ)
  ruff : Option Bool
  virtue : Option (ℚ × ℕ)
  ethics : Option Bool
deriving Repr, DecidableEq

/-- One gate's returned dict: `passed`, the optional `reason`, and the
`tokens` entry (`gate.get("tokens", 0)` at the call sites, so a gate that
omits the key reports `0`). -/
structure GateOutput where
  passed : Bool
  reason : Option FailReason
  tokens : ℕ
deriving Repr, DecidableEq

namespace OracleGatekeeper

/-- Model of `OracleGatekeeper._gate_technical`: pytest must succeed, lint
must be clean (an unavailable linter passes), and the parsed coverage must
reach the configured threshold (`coverage >= threshold`). -/
def gate_technical (g : Gates) (env : OracleEnv) : GateOutput :=
  let pytest_passed := match env.pytest with
    | some (ok, _) => ok
    | none => false
  let coverage : ℚ := match env.pytest with
    | some (_, cov) => cov
    | none => 0
  let lint_passed := match env.ruff with
    | some ok => ok
    | none => true
  let threshold := g.technical.threshold
  let coverage_passed := decide (threshold ≤ coverage)
  let passed := pytest_passed && lint_passed && coverage_passed
  { passed := passed
    reason := if passed then none else some (.technicalChecksFailed coverage)
    tokens := 0 }

/-- Model of `OracleGatekeeper._gate_virtue`: the alignment score must
reach the configured threshold (`score >= threshold`); an `ImportError` of
the validator passes fail-open with no reason and 0 tokens. -/
def gate_virtue (g : Gates) (env : OracleEnv) : GateOutput :=
  match env.virtue with
  | some (score, tokens) =>
      let threshold := g.virtue.threshold
      let passed := decide (threshold ≤ score)
      { passed := passed
        reason := if passed then none else some (.alignmentBelowThreshold score threshold)
        tokens := tokens }
  | none => { passed := true, reason := none, tokens := 0 }

/-- Model of `OracleGatekeeper._gate_ethics`: passes iff the charter
checker reports `charter_safe`; an `ImportError` passes fail-open. -/
def gate_ethics (env : OracleEnv) : GateOutput :=
  match env.ethics with
  | some charter_safe =>
      { passed := charter_safe
        reason := if charter_safe then none else some .charterViolationsDetected
        tokens := 0 }
  | none => { passed := true, reason := none, tokens := 0 }

/-- Model of `OracleGatekeeper._gate_judge`: a stub that always passes and
reports 0 tokens. -/
def gate_judge : GateOutput := { passed := true, reason := none, tokens := 0 }

/-- Model of `OracleGatekeeper._gate_strategy`: a stub that always passes
(its dict has no `tokens` key, and `verify_all` never reads one). -/
def gate_strategy : GateOutput := { passed := true, reason := none, tokens := 0 }

/-- Model of `OracleGatekeeper._gate_perception`: a placeholder that
always passes and reports 0 tokens. -/
def gate_perception : GateOutput := { passed := true, reason := none, tokens := 0 }

/-- Model of `OracleGatekeeper._gate_effort`: the ceiling is the local
constant `max_tokens = 50000` (per-task limit); the gate passes iff
`tokens_used <= max_tokens`. Note that `self.gates["effort"].threshold` is
never consulted: the ceiling is hard-coded. -/
def gate_effort (tokens_used : ℕ) : GateOutput :=
  let max_tokens := 50000
  let passed := decide (tokens_used ≤ max_tokens)
  { passed := passed
    reason := if passed then none else some (.tokenBudgetExceeded tokens_used max_tokens)
    tokens := 0 }

/-- Accumulator of the `verify_all` body: the ordered `results` dict
(becoming `gate_status`), the ordered `details` dict, `all_passed`, the
headline `failure_reason`, and `total_tokens`. -/
structure VerifyAcc where
  results : List (String × Bool)
  details : List (String × GateOutput)
  all_passed : Bool
  failure_reason : Option FailReason
  total_tokens : ℕ
deriving Repr, DecidableEq

/-- The repeated per-gate block of `verify_all`: record the verdict in
`results` and the full dict in `details`; on failure clear `all_passed`
and set the headline reason only if none is recorded yet
(`failure_reason = failure_reason or gateN.get("reason")`). -/
def applyGate (name : String) (out : GateOutput) (s : VerifyAcc) : VerifyAcc :=
  { s with
    results := s.results ++ [(name, out.passed)]
    details := s.details ++ [(name, out)]
    all_passed := s.all_passed && out.passed
    failure_reason := if out.passed then s.failure_reason else py_or s.failure_reason out.reason }

/-- An `if self.gates[name].enabled:` block that does not touch
`total_tokens` (Technical, Ethics, Strategy, Effort). -/
def stepIf (enabled : Bool) (name : String) (out : GateOutput) (s : VerifyAcc) : VerifyAcc :=
  if enabled then applyGate name out s else s

/-- An `if self.gates[name].enabled:` block that also runs
`total_tokens += gateN.get("tokens", 0)` (Virtue, Judge). -/
def stepTokensIf (enabled : Bool) (name : String) (out : GateOutput) (s : VerifyAcc) : VerifyAcc :=
  if enabled then applyGate name out { s with total_tokens := s.total_tokens + out.tokens } else s

/-- The Perception block of `verify_all`: when enabled, also accumulates
tokens; when disabled, `results["perception"] = True` (skip recorded as
passed) and nothing else changes. -/
def stepPerception (enabled : Bool) (s : VerifyAcc) : VerifyAcc :=
  if enabled then
    applyGate "perception" gate_perception
      { s with total_tokens := s.total_tokens + gate_perception.tokens }
  else
    { s with results := s.results ++ [("perception", true)] }

/-- Model of the `GateResult` dataclass returned by `verify_all`. -/
structure GateResult where
  passed : Bool
  gate_status : List (String × Bool)
  failure_reason : Option FailReason
  tokens_used : ℕ
  details : List (String × GateOutput)
deriving Repr, DecidableEq

/-- Model of `OracleGatekeeper.verify_all`: runs the seven gates in the
fixed order Technical, Virtue, Ethics, Judge, Strategy, Perception,
Effort, skipping disabled gates (a disabled Perception gate is still
recorded as passed), accumulating `tokens` from the Virtue, Judge and
Perception gates, and feeding the running total to the Effort gate. -/
def verify_all (g : Gates) (env : OracleEnv) : GateResult :=
  let s1 := stepIf g.technical.enabled "technical" (gate_technical g env) ⟨[], [], true, none, 0⟩
  let s2 := stepTokensIf g.virtue.enabled "virtue" (gate_virtue g env) s1
  let s3 := stepIf g.ethics.enabled "ethics" (gate_ethics env) s2
  let s4 := stepTokensIf g.judge.enabled "judge" gate_judge s3
  let s5 := stepIf g.strategy.enabled "strategy" gate_strategy s4
  let s6 := stepPerception g.perception.enabled s5
  let s7 := stepIf g.effort.enabled "effort" (gate_effort s6.total_tokens) s6
  { passed := s7.all_passed
    gate_status := s7.results
    failure_reason := s7.failure_reason
    tokens_used := s7.total_tokens
    details := s7.details }

/-- The cumulative token cost accumulated by `verify_all` from the three
token-reporting gates (Virtue, Judge, Perception), counting only enabled
gates. -/
def cumulative_gate_tokens (g : Gates) (env : OracleEnv) : ℕ :=
  (if g.virtue.enabled then (gate_virtue g env).tokens else 0) +
  (if g.judge.enabled then gate_judge.tokens else 0) +
  (if g.perception.enabled then gate_perception.tokens else 0)

end OracleGatekeeper

namespace OracleGatekeeper

theorem stepIf_all_passed (e : Bool) (n : String) (o : GateOutput) (s : VerifyAcc) :
    (stepIf e n o s).all_passed = (s.all_passed && (!e || o.passed)) := by
  cases e <;> simp [stepIf, applyGate]

theorem stepTokensIf_all_passed (e : Bool) (n : String) (o : GateOutput) (s : VerifyAcc) :
    (stepTokensIf e n o s).all_passed = (s.all_passed && (!e || o.passed)) := by
  cases e <;> simp [stepTokensIf, applyGate]

theorem stepPerception_all_passed (e : Bool) (s : VerifyAcc) :
    (stepPerception e s).all_passed = (s.all_passed && (!e || gate_perception.passed)) := by
  cases e <;> simp [stepPerception, applyGate, gate_perception]

theorem stepIf_total_tokens (e : Bool) (n : String) (o : GateOutput) (s : VerifyAcc) :
    (stepIf e n o s).total_tokens = s.total_tokens := by
  cases e <;> simp [stepIf, applyGate]

theorem stepTokensIf_total_tokens (e : Bool) (n : String) (o : GateOutput) (s : VerifyAcc) :
    (stepTokensIf e n o s).total_tokens = s.total_tokens + (if e then o.tokens else 0) := by
  cases e <;> simp [stepTokensIf, applyGate]

theorem stepPerception_total_tokens (e : Bool) (s : VerifyAcc) :
    (stepPerception e s).total_tokens =
      s.total_tokens + (if e then gate_perception.tokens else 0) := by
  cases e <;> simp [stepPerception, applyGate]

theorem stepIf_results (e : Bool) (n : String) (o : GateOutput) (s : VerifyAcc) :
    (stepIf e n o s).results = s.results ++ (if e then [(n, o.passed)] else []) := by
  cases e <;> simp [stepIf, applyGate]

theorem stepTokensIf_results (e : Bool) (n : String) (o : GateOutput) (s : VerifyAcc) :
    (stepTokensIf e n o s).results = s.results ++ (if e then [(n, o.passed)] else []) := by
  cases e <;> simp [stepTokensIf, applyGate]

theorem stepPerception_results (e : Bool) (s : VerifyAcc) :
    (stepPerception e s).results =
      s.results ++ [("perception", if e then gate_perception.passed else true)] := by
  cases e <;> simp [stepPerception, applyGate]

theorem stepIf_details (e : Bool) (n : String) (o : GateOutput) (s : VerifyAcc) :
    (stepIf e n o s).details = s.details ++ (if e then [(n, o)] else []) := by
  cases e <;> simp [stepIf, applyGate]

theorem stepTokensIf_details (e : Bool) (n : String) (o : GateOutput) (s : VerifyAcc) :
    (stepTokensIf e n o s).details = s.details ++ (if e then [(n, o)] else []) := by
  cases e <;> simp [stepTokensIf, applyGate]

theorem stepPerception_details (e : Bool) (s : VerifyAcc) :
    (stepPerception e s).details =
      s.details ++ (if e then [("perception", gate_perception)] else []) := by
  cases e <;> simp [stepPerception, applyGate]

theorem applyGate_failure_reason (n : String) (o : GateOutput) (s : VerifyAcc) :
    (applyGate n o s).failure_reason =
      py_or s.failure_reason (if o.passed then none else o.reason) := by
  cases h : o.passed <;> simp [applyGate, h]

theorem stepIf_failure_reason (e : Bool) (n : String) (o : GateOutput) (s : VerifyAcc) :
    (stepIf e n o s).failure_reason =
      py_or s.failure_reason (if e && !o.passed then o.reason else none) := by
  cases e <;> cases h : o.passed <;> simp [stepIf, applyGate, h]

theorem stepTokensIf_failure_reason (e : Bool) (n : String) (o : GateOutput) (s : VerifyAcc) :
    (stepTokensIf e n o s).failure_reason =
      py_or s.failure_reason (if e && !o.passed then o.reason else none) := by
  cases e <;> cases h : o.passed <;> simp [stepTokensIf, applyGate, h]

theorem stepPerception_failure_reason (e : Bool) (s : VerifyAcc) :
    (stepPerception e s).failure_reason = s.failure_reason := by
  cases e <;> simp [stepPerception, applyGate, gate_perception]

/-- The overall verdict of `verify_all` is the conjunction, over the seven
gates in order, of "disabled or passed", with the Effort gate evaluated on
the cumulative token cost. -/
theorem verify_all_passed_eq (g : Gates) (env : OracleEnv) :
    (verify_all g env).passed =
      (true && (!g.technical.enabled || (gate_technical g env).passed)
            && (!g.virtue.enabled || (gate_virtue g env).passed)
            && (!g.ethics.enabled || (gate_ethics env).passed)
            && (!g.judge.enabled || gate_judge.passed)
            && (!g.strategy.enabled || gate_strategy.passed)
            && (!g.perception.enabled || gate_perception.passed)
            && (!g.effort.enabled || (gate_effort (cumulative_gate_tokens g env)).passed)) := by
  have htok : (stepPerception g.perception.enabled
      (stepIf g.strategy.enabled "strategy" gate_strategy
        (stepTokensIf g.judge.enabled "judge" gate_judge
          (stepIf g.ethics.enabled "ethics" (gate_ethics env)
            (stepTokensIf g.virtue.enabled "virtue" (gate_virtue g env)
              (stepIf g.technical.enabled "technical" (gate_technical g env)
                ⟨[], [], true, none, 0⟩)))))).total_tokens =
      cumulative_gate_tokens g env := by
    simp [stepPerception_total_tokens, stepIf_total_tokens, stepTokensIf_total_tokens,
      cumulative_gate_tokens, Nat.add_assoc]
  simp only [verify_all, htok, stepIf_all_passed, stepTokensIf_all_passed,
    stepPerception_all_passed]

/-- The token total of `verify_all` is the cumulative token cost of the
enabled token-reporting gates. -/
theorem verify_all_tokens_used (g : Gates) (env : OracleEnv) :
    (verify_all g env).tokens_used = cumulative_gate_tokens g env := by
  simp [verify_all, stepIf_total_tokens, stepTokensIf_total_tokens,
    stepPerception_total_tokens, cumulative_gate_tokens, Nat.add_assoc]

/-- The ordered `gate_status` produced by `verify_all`: one entry per
enabled gate, plus a `("perception", true)` entry when Perception is
disabled. -/
theorem verify_all_gate_status_eq (g : Gates) (env : OracleEnv) :
    (verify_all g env).gate_status =
      (if g.technical.enabled then [("technical", (gate_technical g env).passed)] else []) ++
      (if g.virtue.enabled then [("virtue", (gate_virtue g env).passed)] else []) ++
      (if g.ethics.enabled then [("ethics", (gate_ethics env).passed)] else []) ++
      (if g.judge.enabled then [("judge", gate_judge.passed)] else []) ++
      (if g.strategy.enabled then [("strategy", gate_strategy.passed)] else []) ++
      [("perception", if g.perception.enabled then gate_perception.passed else true)] ++
      (if g.effort.enabled then
        [("effort", (gate_effort (cumulative_gate_tokens g env)).passed)] else []) := by
  have htok : (stepPerception g.perception.enabled
      (stepIf g.strategy.enabled "strategy" gate_strategy
        (stepTokensIf g.judge.enabled "judge" gate_judge
          (stepIf g.ethics.enabled "ethics" (gate_ethics env)
            (stepTokensIf g.virtue.enabled "virtue" (gate_virtue g env)
              (stepIf g.technical.enabled "technical" (gate_technical g env)
                ⟨[], [], true, none, 0⟩)))))).total_tokens =
      cumulative_gate_tokens g env := by
    simp [stepPerception_total_tokens, stepIf_total_tokens, stepTokensIf_total_tokens,
      cumulative_gate_tokens, Nat.add_assoc]
  simp only [verify_all, htok, stepIf_results, stepTokensIf_results, stepPerception_results]
  simp [List.append_assoc]

/-- The ordered `details` produced by `verify_all`: the full dict of each
enabled gate (a disabled Perception gate leaves no detail entry). -/
theorem verify_all_details_eq (g : Gates) (env : OracleEnv) :
    (verify_all g env).details =
      (if g.technical.enabled then [("technical", gate_technical g env)] else []) ++
      (if g.virtue.enabled then [("virtue", gate_virtue g env)] else []) ++
      (if g.ethics.enabled then [("ethics", gate_ethics env)] else []) ++
      (if g.judge.enabled then [("judge", gate_judge)] else []) ++
      (if g.strategy.enabled then [("strategy", gate_strategy)] else []) ++
      (if g.perception.enabled then [("perception", gate_perception)] else []) ++
      (if g.effort.enabled then
        [("effort", gate_effort (cumulative_gate_tokens g env))] else []) := by
  have htok : (stepPerception g.perception.enabled
      (stepIf g.strategy.enabled "strategy" gate_strategy
        (stepTokensIf g.judge.enabled "judge" gate_judge
          (stepIf g.ethics.enabled "ethics" (gate_ethics env)
            (stepTokensIf g.virtue.enabled "virtue" (gate_virtue g env)
              (stepIf g.technical.enabled "technical" (gate_technical g env)
                ⟨[], [], true, none, 0⟩)))))).total_tokens =
      cumulative_gate_tokens g env := by
    simp [stepPerception_total_tokens, stepIf_total_tokens, stepTokensIf_total_tokens,
      cumulative_gate_tokens, Nat.add_assoc]
  simp only [verify_all, htok, stepIf_details, stepTokensIf_details, stepPerception_details]
  simp [List.append_assoc]

end OracleGatekeeper

namespace OracleGatekeeper

/-- The headline `failure_reason` of `verify_all` is the Python
`or`-accumulation of the failing enabled gates' reasons in gate order (the
Judge, Strategy and Perception stubs never fail and contribute nothing). -/
theorem verify_all_failure_reason_eq (g : Gates) (env : OracleEnv) :
    (verify_all g env).failure_reason =
      py_or (py_or (py_or
        (if g.technical.enabled && !(gate_technical g env).passed
          then (gate_technical g env).reason else none)
        (if g.virtue.enabled && !(gate_virtue g env).passed
          then (gate_virtue g env).reason else none))
        (if g.ethics.enabled && !(gate_ethics env).passed
          then (gate_ethics env).reason else none))
        (if g.effort.enabled && !(gate_effort (cumulative_gate_tokens g env)).passed
          then (gate_effort (cumulative_gate_tokens g env)).reason else none) := by
  have htok : (stepPerception g.perception.enabled
      (stepIf g.strategy.enabled "strategy" gate_strategy
        (stepTokensIf g.judge.enabled "judge" gate_judge
          (stepIf g.ethics.enabled "ethics" (gate_ethics env)
            (stepTokensIf g.virtue.enabled "virtue" (gate_virtue g env)
              (stepIf g.technical.enabled "technical" (gate_technical g env)
                ⟨[], [], true, none, 0⟩)))))).total_tokens =
      cumulative_gate_tokens g env := by
    simp [stepPerception_total_tokens, stepIf_total_tokens, stepTokensIf_total_tokens,
      cumulative_gate_tokens, Nat.add_assoc]
  simp only [verify_all, htok, stepIf_failure_reason, stepTokensIf_failure_reason,
    stepPerception_failure_reason]
  simp [gate_judge, gate_strategy]

/-- A disabled-or-passed boolean guard equals the corresponding
implication. -/
theorem bool_guard_iff (e p : Bool) : (!e || p) = true ↔ (e = true → p = true) := by
  cases e <;> cases p <;> simp

theorem forall_mem_ite_singleton {α : Type} (e : Bool) (x : α) (P : α → Prop) :
    (∀ p ∈ (if e then [x] else ([] : List α)), P p) ↔ (e = true → P x) := by
  cases e <;> simp

end OracleGatekeeper

open OracleGatekeeper in
/-- C1: for every gate configuration and environment,
`OracleGatekeeper.verify_all` returns a result whose `passed` field is
true iff every enabled gate passed (equivalently, iff every entry of
`gate_status` is true — a disabled Perception gate being recorded there as
passed); and with all seven gates enabled and every gate passing the
result has `passed = true` and a `gate_status` with exactly 7 entries, all
true. -/
theorem verify_all_passed_iff_enabled_gates (g : Gates) (env : OracleEnv) :
    ((verify_all g env).passed = true ↔
      ((g.technical.enabled = true → (gate_technical g env).passed = true) ∧
       (g.virtue.enabled = true → (gate_virtue g env).passed = true) ∧
       (g.ethics.enabled = true → (gate_ethics env).passed = true) ∧
       (g.judge.enabled = true → gate_judge.passed = true) ∧
       (g.strategy.enabled = true → gate_strategy.passed = true) ∧
       (g.perception.enabled = true → gate_perception.passed = true) ∧
       (g.effort.enabled = true →
         (gate_effort (cumulative_gate_tokens g env)).passed = true))) ∧
    ((verify_all g env).passed = true ↔
      ∀ p ∈ (verify_all g env).gate_status, p.2 = true) ∧
    (g.technical.enabled = true → g.virtue.enabled = true → g.ethics.enabled = true →
     g.judge.enabled = true → g.strategy.enabled = true → g.perception.enabled = true →
     g.effort.enabled = true →
     (gate_technical g env).passed = true → (gate_virtue g env).passed = true →
     (gate_ethics env).passed = true →
     (gate_effort (cumulative_gate_tokens g env)).passed = true →
     (verify_all g env).passed = true ∧
     (verify_all g env).gate_status.length = 7 ∧
     ((verify_all g env).gate_status.filter (fun p => p.2)).length = 7) := by
  refine ⟨?_, ?_, ?_⟩
  · rw [verify_all_passed_eq]
    simp only [Bool.and_eq_true, bool_guard_iff]
    tauto
  · rw [verify_all_passed_eq, verify_all_gate_status_eq]
    simp only [List.forall_mem_append, forall_mem_ite_singleton,
      List.forall_mem_singleton, Bool.and_eq_true, bool_guard_iff, gate_perception,
      Bool.or_true, ite_self]
    tauto
  · intro h1 h2 h3 h4 h5 h6 h7 p1 p2 p3 p7
    rw [verify_all_passed_eq, verify_all_gate_status_eq]
    simp [h1, h2, h3, h4, h5, h6, h7, p1, p2, p3, p7, gate_judge, gate_strategy,
      gate_perception, List.filter]

open OracleGatekeeper in
/-- Gate table with all seven gates enabled (Perception switched on, e.g.
via the YAML config loader) and the default thresholds. -/
def gatesAllEnabled : Gates where
  technical := { threshold := mkRat 4 5 }
  virtue := { threshold := mkRat 199 200 }
  ethics := {}
  judge := {}
  strategy := {}
  perception := {}
  effort := {}

/-- Environment in which every gate check succeeds: pytest green with 90%
coverage, lint clean, alignment score 1.0 with 120 tokens, charter safe. -/
def envAllPass : OracleEnv :=
  { pytest := some (true, mkRat 9 10), ruff := some true, virtue := some (1, 120),
    ethics := some true }

open OracleGatekeeper in
/-- C1 witness: with all seven gates enabled and every gate passing,
`verify_all` returns `passed = true` and a `gate_status` with exactly 7
true entries. -/
theorem verify_all_passed_iff_enabled_gates_witness :
    (verify_all gatesAllEnabled envAllPass).passed = true ∧
    (verify_all gatesAllEnabled envAllPass).gate_status.length = 7 ∧
    ((verify_all gatesAllEnabled envAllPass).gate_status.filter (fun p => p.2)).length = 7 :=
  (verify_all_passed_iff_enabled_gates gatesAllEnabled envAllPass).2.2
    rfl rfl rfl rfl rfl rfl rfl (by decide) (by decide) (by decide) (by decide)

namespace OracleGatekeeper

/-- Headline-reason invariant of the `verify_all` accumulator: the
recorded `failure_reason` is exactly the reason of the first failing gate
in `details`, and every failing gate's own reason is present in its
detail entry. -/
def reason_inv (s : VerifyAcc) : Prop :=
  s.failure_reason =
    Option.bind (s.details.find? (fun p => !p.2.passed)) (fun p => p.2.reason) ∧
  ∀ p ∈ s.details, p.2.passed = false → p.2.reason ≠ none

/-- A failing Technical gate always carries a reason. -/
theorem gate_technical_fail_reason (g : Gates) (env : OracleEnv) :
    (gate_technical g env).passed = false → (gate_technical g env).reason ≠ none := by
  unfold gate_technical
  intro h
  simp only at h ⊢
  rw [h]
  simp

/-- A failing Virtue gate always carries a reason. -/
theorem gate_virtue_fail_reason (g : Gates) (env : OracleEnv) :
    (gate_virtue g env).passed = false → (gate_virtue g env).reason ≠ none := by
  unfold gate_virtue
  rcases env.virtue with _ | ⟨score, tokens⟩ <;> intro h <;> simp only at h ⊢
  · exact absurd h (by simp)
  · rw [h]; simp

/-- A failing Ethics gate always carries a reason. -/
theorem gate_ethics_fail_reason (env : OracleEnv) :
    (gate_ethics env).passed = false → (gate_ethics env).reason ≠ none := by
  unfold gate_ethics
  rcases env.ethics with _ | safe <;> intro h <;> simp only at h ⊢
  · exact absurd h (by simp)
  · rw [h]; simp [h]

/-- A failing Effort gate always carries a reason. -/
theorem gate_effort_fail_reason (t : ℕ) :
    (gate_effort t).passed = false → (gate_effort t).reason ≠ none := by
  unfold gate_effort
  intro h
  simp only at h ⊢
  rw [h]
  simp

theorem reason_inv_applyGate (n : String) (o : GateOutput) (s : VerifyAcc)
    (ho : o.passed = false → o.reason ≠ none) (h : reason_inv s) :
    reason_inv (applyGate n o s) := by
  obtain ⟨h1, h2⟩ := h
  constructor
  · have hdet : (applyGate n o s).details = s.details ++ [(n, o)] := rfl
    rw [hdet, applyGate_failure_reason, List.find?_append]
    cases hp : o.passed
    · have hr : o.reason ≠ none := ho hp
      cases hf : s.details.find? (fun p => !p.2.passed) with
      | some p =>
          have hpmem := List.mem_of_find?_eq_some hf
          have hppred : p.2.passed = false := by
            have := List.find?_some hf
            simpa using this
          have hpr : p.2.reason ≠ none := h2 p hpmem hppred
          obtain ⟨rp, hrp⟩ := Option.ne_none_iff_exists'.mp hpr
          rw [h1, hf]
          simp [Option.or, hrp, py_or, hp]
      | none =>
          rw [h1, hf]
          simp [Option.or, py_or, hp]
    · cases hf : s.details.find? (fun p => !p.2.passed) with
      | some p =>
          rw [h1, hf]
          cases hpr : p.2.reason <;> simp [Option.or, py_or, hp, hpr]
      | none =>
          rw [h1, hf]
          simp [Option.or, py_or, hp]
  · intro p hp hfail
    rcases List.mem_append.mp hp with hmem | hmem
    · exact h2 p hmem hfail
    · have : p = (n, o) := by simpa using hmem
      subst this
      exact ho hfail

theorem reason_inv_stepIf (e : Bool) (n : String) (o : GateOutput) (s : VerifyAcc)
    (ho : o.passed = false → o.reason ≠ none) (h : reason_inv s) :
    reason_inv (stepIf e n o s) := by
  cases e
  · simpa [stepIf] using h
  · simpa [stepIf] using reason_inv_applyGate n o s ho h

theorem reason_inv_stepTokensIf (e : Bool) (n : String) (o : GateOutput) (s : VerifyAcc)
    (ho : o.passed = false → o.reason ≠ none) (h : reason_inv s) :
    reason_inv (stepTokensIf e n o s) := by
  cases e
  · simpa [stepTokensIf] using h
  · have h' : reason_inv { s with total_tokens := s.total_tokens + o.tokens } := h
    simpa [stepTokensIf] using
      reason_inv_applyGate n o { s with total_tokens := s.total_tokens + o.tokens } ho h'

theorem reason_inv_stepPerception (e : Bool) (s : VerifyAcc) (h : reason_inv s) :
    reason_inv (stepPerception e s) := by
  cases e
  · exact h
  · have h' : reason_inv { s with total_tokens := s.total_tokens + gate_perception.tokens } := h
    simpa [stepPerception] using
      reason_inv_applyGate "perception" gate_perception
        { s with total_tokens := s.total_tokens + gate_perception.tokens }
        (by simp [gate_perception]) h'

/-- The `reason_inv` invariant holds of the final `verify_all` result. -/
theorem verify_all_reason_inv (g : Gates) (env : OracleEnv) :
    (verify_all g env).failure_reason =
      Option.bind ((verify_all g env).details.find? (fun p => !p.2.passed))
        (fun p => p.2.reason) ∧
    ∀ p ∈ (verify_all g env).details, p.2.passed = false → p.2.reason ≠ none := by
  have h0 : reason_inv ⟨[], [], true, none, 0⟩ := ⟨rfl, by simp⟩
  have h1 := reason_inv_stepIf g.technical.enabled "technical" (gate_technical g env)
    ⟨[], [], true, none, 0⟩ (gate_technical_fail_reason g env) h0
  have h2 := reason_inv_stepTokensIf g.virtue.enabled "virtue" (gate_virtue g env) _
    (gate_virtue_fail_reason g env) h1
  have h3 := reason_inv_stepIf g.ethics.enabled "ethics" (gate_ethics env) _
    (gate_ethics_fail_reason env) h2
  have h4 := reason_inv_stepTokensIf g.judge.enabled "judge" gate_judge _
    (by simp [gate_judge]) h3
  have h5 := reason_inv_stepIf g.strategy.enabled "strategy" gate_strategy _
    (by simp [gate_strategy]) h4
  have h6 := reason_inv_stepPerception g.perception.enabled _ h5
  have h7 := reason_inv_stepIf g.effort.enabled "effort"
    (gate_effort (stepPerception g.perception.enabled
      (stepIf g.strategy.enabled "strategy" gate_strategy
        (stepTokensIf g.judge.enabled "judge" gate_judge
          (stepIf g.ethics.enabled "ethics" (gate_ethics env)
            (stepTokensIf g.virtue.enabled "virtue" (gate_virtue g env)
              (stepIf g.technical.enabled "technical" (gate_technical g env)
                ⟨[], [], true, none, 0⟩)))))).total_tokens) _
    (gate_effort_fail_reason _) h6
  exact ⟨h7.1, h7.2⟩

end OracleGatekeeper

open OracleGatekeeper in
/-- C5: for every gate configuration and environment in which at least two
gates fail, the headline `failure_reason` of `verify_all` equals the reason
reported by the first failing gate in the fixed gate order (the one found
first in the ordered per-gate `details`); later failing gates never
overwrite it, and each failing gate's own reason remains visible in its
`details` entry. -/
theorem verify_all_first_failure_headline (g : Gates) (env : OracleEnv)
    (h : 2 ≤ ((verify_all g env).details.filter (fun p => !p.2.passed)).length) :
    (∃ p, (verify_all g env).details.find? (fun p => !p.2.passed) = some p ∧
          (verify_all g env).failure_reason = p.2.reason ∧
          p.2.reason ≠ none) ∧
    ∀ p ∈ (verify_all g env).details, p.2.passed = false → p.2.reason ≠ none := by
  obtain ⟨hfr, hvis⟩ := verify_all_reason_inv g env
  have hpos : 0 < ((verify_all g env).details.filter (fun p => !p.2.passed)).length := by
    omega
  obtain ⟨q, hq⟩ := List.exists_mem_of_length_pos hpos
  have hqmem : q ∈ (verify_all g env).details := (List.mem_filter.mp hq).1
  have hqpred : (!q.2.passed) = true := (List.mem_filter.mp hq).2
  have hsome : ((verify_all g env).details.find? (fun p => !p.2.passed)).isSome := by
    rw [List.find?_isSome]
    exact ⟨q, hqmem, hqpred⟩
  obtain ⟨p0, hp0⟩ := Option.isSome_iff_exists.mp hsome
  have hp0mem := List.mem_of_find?_eq_some hp0
  have hp0fail : p0.2.passed = false := by
    have := List.find?_some hp0
    simpa using this
  refine ⟨⟨p0, hp0, ?_, hvis p0 hp0mem hp0fail⟩, hvis⟩
  rw [hfr, hp0, Option.some_bind]

open OracleGatekeeper in
/-- Environment in which two gates fail: pytest exits non-zero with no
coverage, and the alignment score 0 misses the 0.995 threshold. -/
def envTwoFails : OracleEnv :=
  { pytest := some (false, 0), ruff := some true, virtue := some (0, 5),
    ethics := some true }

open OracleGatekeeper in
/-- C5 witness: with the default gate table, an environment failing both
the Technical and the Virtue gate satisfies the two-failure hypothesis,
and the headline reason is the Technical gate's. -/
theorem verify_all_first_failure_headline_witness :
    2 ≤ ((verify_all defaultGates envTwoFails).details.filter
          (fun p => !p.2.passed)).length ∧
    ((∃ p, (verify_all defaultGates envTwoFails).details.find?
            (fun p => !p.2.passed) = some p ∧
          (verify_all defaultGates envTwoFails).failure_reason = p.2.reason ∧
          p.2.reason ≠ none) ∧
     ∀ p ∈ (verify_all defaultGates envTwoFails).details,
        p.2.passed = false → p.2.reason ≠ none) :=
  ⟨by decide, verify_all_first_failure_headline defaultGates envTwoFails (by decide)⟩

open OracleGatekeeper in
/-- Gate table identical to the default one, with the Effort gate's only
configurable knob (`GateConfig.threshold`) explicitly set to 0 — the
closest realisable reading of "the Effort gate's token ceiling set to 0"
(the source exposes no other per-gate setting). -/
def gatesEffortZero : Gates where
  technical := { threshold := mkRat 4 5 }
  virtue := { threshold := mkRat 199 200 }
  ethics := {}
  judge := {}
  strategy := {}
  perception := { enabled := false }
  effort := { threshold := 0 }

open OracleGatekeeper in
/-- Environment in which every gate check succeeds and the Virtue gate (a
token-consuming gate) reports 1 token. -/
def envOneToken : OracleEnv :=
  { pytest := some (true, mkRat 9 10), ruff := some true, virtue := some (1, 1),
    ethics := some true }

open OracleGatekeeper in
/-- C6 counterexample: with the Effort gate's configured threshold set to
0 and a token-consuming gate reporting 1 > 0 tokens, `verify_all` still
returns `passed = true` with no failure reason — the claimed
`passed=False` with a budget-exceeded reason does not occur, because
`_gate_effort` ignores the configuration and compares against the
hard-coded constant 50000. -/
theorem effort_ceiling_config_ignored_cx :
    gatesEffortZero.effort.threshold = 0 ∧
    gatesEffortZero.effort.enabled = true ∧
    0 < (verify_all gatesEffortZero envOneToken).tokens_used ∧
    (verify_all gatesEffortZero envOneToken).passed = true ∧
    (verify_all gatesEffortZero envOneToken).failure_reason = none := by
  refine ⟨rfl, rfl, by decide, by decide, by decide⟩

open OracleGatekeeper in
/-- C6 amended: the Effort gate's per-task ceiling is the hard-coded
constant 50000 (`GateConfig.threshold` is never consulted, so it cannot be
"set to 0"): the gate passes iff the cumulative token cost reported by the
Virtue/Judge/Perception gates is at most 50000, and whenever the Effort
gate is enabled, that cumulative cost exceeds 50000 and every other
enabled gate passes, `verify_all` returns `passed = false` with the
budget-exceeded failure reason. -/
theorem effort_hardcoded_ceiling (g : Gates) (env : OracleEnv)
    (heff : g.effort.enabled = true)
    (htok : 50000 < cumulative_gate_tokens g env)
    (ht : g.technical.enabled = true → (gate_technical g env).passed = true)
    (hv : g.virtue.enabled = true → (gate_virtue g env).passed = true)
    (he : g.ethics.enabled = true → (gate_ethics env).passed = true) :
    (∀ t : ℕ, (gate_effort t).passed = true ↔ t ≤ 50000) ∧
    (gate_effort (cumulative_gate_tokens g env)).passed = false ∧
    (verify_all g env).passed = false ∧
    (verify_all g env).failure_reason =
      some (.tokenBudgetExceeded (cumulative_gate_tokens g env) 50000) := by
  have hiff : ∀ t : ℕ, (gate_effort t).passed = true ↔ t ≤ 50000 := by
    intro t
    simp [gate_effort]
  have hfail : (gate_effort (cumulative_gate_tokens g env)).passed = false := by
    simp [gate_effort]
    omega
  have hreason : (gate_effort (cumulative_gate_tokens g env)).reason =
      some (.tokenBudgetExceeded (cumulative_gate_tokens g env) 50000) := by
    have : ¬ (cumulative_gate_tokens g env ≤ 50000) := by omega
    simp [gate_effort, this]
  have htb : (g.technical.enabled && !(gate_technical g env).passed) = false := by
    cases hte : g.technical.enabled
    · simp
    · simp [ht hte]
  have hvb : (g.virtue.enabled && !(gate_virtue g env).passed) = false := by
    cases hve : g.virtue.enabled
    · simp
    · simp [hv hve]
  have heb : (g.ethics.enabled && !(gate_ethics env).passed) = false := by
    cases hee : g.ethics.enabled
    · simp
    · simp [he hee]
  refine ⟨hiff, hfail, ?_, ?_⟩
  · rw [verify_all_passed_eq]
    simp [heff, hfail]
  · rw [verify_all_failure_reason_eq]
    simp [htb, hvb, heb, heff, hfail, hreason]

open OracleGatekeeper in
/-- Environment in which every gate check succeeds but the Virtue gate
reports 60000 tokens, blowing the hard-coded 50000 effort ceiling. -/
def envBigTokens : OracleEnv :=
  { pytest := some (true, mkRat 9 10), ruff := some true,
    virtue := some (1, 60000), ethics := some true }

open OracleGatekeeper in
/-- C6 amended witness: 60000 reported tokens exceed the hard-coded 50000
ceiling, so `verify_all` fails with the budget-exceeded reason. -/
theorem effort_hardcoded_ceiling_witness :
    (∀ t : ℕ, (gate_effort t).passed = true ↔ t ≤ 50000) ∧
    (gate_effort (cumulative_gate_tokens defaultGates envBigTokens)).passed = false ∧
    (verify_all defaultGates envBigTokens).passed = false ∧
    (verify_all defaultGates envBigTokens).failure_reason =
      some (.tokenBudgetExceeded (cumulative_gate_tokens defaultGates envBigTokens) 50000) :=
  effort_hardcoded_ceiling defaultGates envBigTokens rfl (by decide)
    (fun _ => by decide) (fun _ => by decide) (fun _ => by decide)

/- ═══════════ StateManager (src/chickenhawk/core/state_manager.py) ═══════════ -/

/-- The `TaskStatus` literal of state_manager.py: exactly the five values
"pending", "in_progress", "complete", "failed", "blocked". Note there is
no "skipped" value. -/
inductive TaskStatus where
  | pending
  | in_progress
  | complete
  | failed
  | blocked
deriving Repr, DecidableEq

/-- The string stored in JSON for each `TaskStatus` value. -/
def statusStr : TaskStatus → String
  | .pending => "pending"
  | .in_progress => "in_progress"
  | .complete => "complete"
  | .failed => "failed"
  | .blocked => "blocked"

/-- Parse a persisted status string back into a `TaskStatus`. -/
def strToStatus : String → Option TaskStatus
  | "pending" => some .pending
  | "in_progress" => some .in_progress
  | "complete" => some .complete
  | "failed" => some .failed
  | "blocked" => some .blocked
  | _ => none

@[simp] theorem strToStatus_statusStr (s : TaskStatus) :
    strToStatus (statusStr s) = some s := by
  cases s <;> rfl

/-- Model of the `TaskState` dataclass with its field defaults. -/
structure TaskState where
  id : String
  title : String
  status : TaskStatus := .pending
  retry_count : ℤ := 0
  last_failure : Option String := none
  started_at : Option String := none
  completed_at : Option String := none
  output_path : Option String := none
  spec_path : Option String := none
  tokens_used : ℤ := 0
deriving Repr, DecidableEq

/-- JSON scalar values occurring in a persisted task record. -/
inductive JValue where
  | null
  | str (s : String)
  | int (n : ℤ)
deriving Repr, DecidableEq

/-- Encoding of an `Optional[str]` field. -/
def optStr : Option String → JValue
  | none => .null
  | some s => .str s

/-- The keys of `TaskState.__dataclass_fields__`, in declaration order. -/
def task_field_names : List String :=
  ["id", "title", "status", "retry_count", "last_failure", "started_at",
   "completed_at", "output_path", "spec_path", "tokens_used"]

namespace TaskState

/-- Model of `TaskState.to_dict` (`dataclasses.asdict`): one entry per
field, in declaration order, with the status stored as its string. -/
def to_dict (t : TaskState) : List (String × JValue) :=
  [("id", .str t.id), ("title", .str t.title),
   ("status", .str (statusStr t.status)),
   ("retry_count", .int t.retry_count),
   ("last_failure", optStr t.last_failure),
   ("started_at", optStr t.started_at),
   ("completed_at", optStr t.completed_at),
   ("output_path", optStr t.output_path),
   ("spec_path", optStr t.spec_path),
   ("tokens_used", .int t.tokens_used)]

/-- Dict lookup (first occurrence, matching Python's unique-key dicts). -/
def lookupKey (d : List (String × JValue)) (k : String) : Option JValue :=
  (d.find? (fun kv => kv.1 == k)).map (fun kv => kv.2)

/-- Read an `Optional[str]` field, with `None` as the dataclass default
for a missing key; a non-string non-null value yields `none` (a record no
Python code path constructs, since Python does not type-check dataclass
kwargs). -/
def getOptStr (d : List (String × JValue)) (k : String) : Option (Option String) :=
  match lookupKey d k with
  | none => some none
  | some .null => some none
  | some (.str s) => some (some s)
  | some _ => none

/-- Read an `int` field with a dataclass default for a missing key. -/
def getInt (d : List (String × JValue)) (k : String) (dflt : ℤ) : Option ℤ :=
  match lookupKey d k with
  | none => some dflt
  | some (.int n) => some n
  | some _ => none

/-- Read the `status` field ("pending" is the dataclass default). -/
def getStatus (d : List (String × JValue)) : Option TaskStatus :=
  match lookupKey d "status" with
  | none => some .pending
  | some (.str s) => strToStatus s
  | some _ => none

/-- Model of `TaskState.from_dict`: keeps only keys that are dataclass
fields and constructs the record (`cls(**filtered)`); `id` and `title`
have no defaults, so a dict missing them fails (Python `TypeError`).
`none` also models ill-typed constructions that no code path produces
(Python would build an ill-typed record instead). -/
def from_dict (d0 : List (String × JValue)) : Option TaskState :=
  let d := d0.filter (fun kv => task_field_names.contains kv.1)
  match lookupKey d "id", lookupKey d "title" with
  | some (.str i), some (.str ttl) => do
      let status ← getStatus d
      let retry_count ← getInt d "retry_count" 0
      let last_failure ← getOptStr d "last_failure"
      let started_at ← getOptStr d "started_at"
      let completed_at ← getOptStr d "completed_at"
      let output_path ← getOptStr d "output_path"
      let spec_path ← getOptStr d "spec_path"
      let tokens_used ← getInt d "tokens_used" 0
      some { id := i, title := ttl, status := status, retry_count := retry_count,
             last_failure := last_failure, started_at := started_at,
             completed_at := completed_at, output_path := output_path,
             spec_path := spec_path, tokens_used := tokens_used }
  | _, _ => none

/-- Serialising a task and parsing it back reproduces the task exactly. -/
theorem from_dict_to_dict (t : TaskState) : from_dict (to_dict t) = some t := by
  obtain ⟨i, ttl, st, rc, lf, sa, ca, op, sp, tu⟩ := t
  unfold from_dict to_dict
  simp only [task_field_names, List.contains_cons, List.filter, beq_self_eq_true]
  norm_num [lookupKey, List.find?, getStatus, getInt, getOptStr]
  cases lf <;> cases sa <;> cases ca <;> cases op <;> cases sp <;>
    simp [optStr, Option.bind]

end TaskState

/-- Model of the in-memory `PRDState` dataclass. `tasks` holds `TaskState`
records (every code path that builds the list — `initialize_from_prd` and
`_load` — creates `TaskState` objects). -/
structure PRDState where
  prd_file : String
  version : String := "1.0"
  tasks : List TaskState := []
  created_at : String := ""
  updated_at : String := ""
deriving Repr, DecidableEq

/-- The persisted `task-state.json` document, i.e. the output of
`PRDState.to_dict` as written by `json.dump` and read back by
`json.load` (the JSON text round-trip itself is lossless and left
implicit). -/
structure StoredDoc where
  prd_file : String
  version : String
  tasks : List (List (String × JValue))
  created_at : String
  updated_at : String
deriving Repr, DecidableEq

namespace StateManager

/-- Model of `StateManager._save`: stamps `updated_at = now` on the state
and writes `PRDState.to_dict`, serialising every task with
`TaskState.to_dict`. -/
def save (p : PRDState) (now : String) : StoredDoc :=
  { prd_file := p.prd_file
    version := p.version
    tasks := p.tasks.map TaskState.to_dict
    created_at := p.created_at
    updated_at := now }

/-- Model of the task-list parsing loop of `StateManager._load`
(`[TaskState.from_dict(t) for t in data.get("tasks", [])]`): rebuilds the
tasks in order; `none` models a `TypeError` escaping the comprehension on
a malformed record. -/
def parseTasks : List (List (String × JValue)) → Option (List TaskState)
  | [] => some []
  | d :: ds => do
      let t ← TaskState.from_dict d
      let ts ← parseTasks ds
      some (t :: ts)

/-- Model of `StateManager._load`: rebuilds every task with
`TaskState.from_dict` and reassembles the `PRDState`. -/
def load (doc : StoredDoc) : Option PRDState := do
  let tasks ← parseTasks doc.tasks
  some { prd_file := doc.prd_file, version := doc.version, tasks := tasks,
         created_at := doc.created_at, updated_at := doc.updated_at }

/-- Model of `StateManager.get_task`: first task with the given id. -/
def get_task (p : PRDState) (task_id : String) : Option TaskState :=
  p.tasks.find? (fun t => t.id == task_id)

/-- In-place mutation of the first task with the given id (the Python
method mutates the object returned by `get_task`, which is an element of
the list). -/
def updateTask (tasks : List TaskState) (task_id : String)
    (f : TaskState → TaskState) : List TaskState :=
  match tasks with
  | [] => []
  | t :: ts => if t.id == task_id then f t :: ts else t :: updateTask ts task_id f

/-- Model of `StateManager.log_retry`: if a task with the id exists,
increment its `retry_count`, record the failure reason, and reset its
status to "pending" (then `_save` persists the new state, cf. `save`).
There is no guard on the task's current status. -/
def log_retry (p : PRDState) (task_id : String) (reason : String) : PRDState :=
  match get_task p task_id with
  | none => p
  | some _ =>
      { p with tasks := updateTask p.tasks task_id (fun t =>
          { t with retry_count := t.retry_count + 1,
                   last_failure := some reason,
                   status := .pending }) }

end StateManager

/-- Parsing back a list of serialised tasks reproduces the list. -/
theorem parseTasks_to_dict (ts : List TaskState) :
    StateManager.parseTasks (ts.map TaskState.to_dict) = some ts := by
  induction ts with
  | nil => rfl
  | cons t ts ih =>
      simp [StateManager.parseTasks, TaskState.from_dict_to_dict, ih]

/-- C7: persisting a work-plan state via `StateManager._save` and
reloading it from the same store yields an identical ordered task list —
the same task ids in the same order, with the same statuses and the same
retry counts (indeed the tasks are reproduced field-for-field, and the
whole state except the freshly stamped `updated_at`). -/
theorem state_save_load_roundtrip (p : PRDState) (now : String) :
    StateManager.load (StateManager.save p now) = some { p with updated_at := now } ∧
    (StateManager.load (StateManager.save p now)).map PRDState.tasks = some p.tasks := by
  have h : StateManager.load (StateManager.save p now) =
      some { p with updated_at := now } := by
    unfold StateManager.load StateManager.save
    simp [parseTasks_to_dict]
  exact ⟨h, by rw [h]; rfl⟩

/-- Updating the first task matching an id (by an id-preserving mutation)
is observed by a subsequent `find?` on the same id. -/
theorem find?_updateTask (tasks : List TaskState) (task_id : String)
    (f : TaskState → TaskState) (hf : ∀ u, (f u).id = u.id) (t : TaskState)
    (hfind : tasks.find? (fun u => u.id == task_id) = some t) :
    (StateManager.updateTask tasks task_id f).find? (fun u => u.id == task_id) =
      some (f t) := by
  induction tasks with
  | nil => simp [List.find?] at hfind
  | cons t0 ts ih =>
      unfold StateManager.updateTask
      by_cases h0 : (t0.id == task_id) = true
      · simp only [List.find?, h0] at hfind
        obtain rfl : t0 = t := Option.some.inj hfind
        rw [if_pos h0]
        have hfid : ((f t0).id == task_id) = true := by
          rw [hf t0]
          exact h0
        simp only [List.find?, hfid]
      · have h0' : (t0.id == task_id) = false := by
          simpa using h0
        simp only [List.find?, h0'] at hfind
        rw [if_neg h0]
        simp only [List.find?, h0']
        exact ih hfind

/-- C10: `StateManager.log_retry` has no guard against terminal statuses:
called on a task whose status is already `complete` or `failed`, it still
increments the retry count, records the failure reason, and resets the
status to "pending", reviving the task into the pending pool. -/
theorem log_retry_revives_terminal (p : PRDState) (task_id reason : String)
    (t : TaskState)
    (hfind : StateManager.get_task p task_id = some t)
    (hterm : t.status = .complete ∨ t.status = .failed) :
    StateManager.get_task (StateManager.log_retry p task_id reason) task_id =
      some { t with retry_count := t.retry_count + 1,
                    last_failure := some reason,
                    status := .pending } := by
  have hrw : StateManager.log_retry p task_id reason =
      { p with tasks := StateManager.updateTask p.tasks task_id (fun u =>
          { u with retry_count := u.retry_count + 1,
                   last_failure := some reason,
                   status := .pending }) } := by
    unfold StateManager.log_retry
    rw [hfind]
  rw [hrw]
  unfold StateManager.get_task at hfind ⊢
  exact find?_updateTask p.tasks task_id
    (fun u => { u with retry_count := u.retry_count + 1,
                       last_failure := some reason,
                       status := .pending })
    (fun u => rfl) t hfind

/-- A task that is already terminal (status "complete"). -/
def taskDone : TaskState :=
  { id := "task-001", title := "Build the widget", status := .complete,
    retry_count := 2, completed_at := some "2025-01-01T00:00:00Z" }

/-- A one-task plan whose only task is terminal. -/
def planWithDoneTask : PRDState :=
  { prd_file := "specs/prd.md", tasks := [taskDone] }

/-- C10 witness: logging a retry on the completed `task-001` increments
its retry count to 3, records the reason, and resets it to "pending". -/
theorem log_retry_revives_terminal_witness :
    StateManager.get_task planWithDoneTask "task-001" = some taskDone ∧
    (taskDone.status = .complete ∨ taskDone.status = .failed) ∧
    StateManager.get_task
        (StateManager.log_retry planWithDoneTask "task-001" "gates failed")
        "task-001" =
      some { taskDone with retry_count := taskDone.retry_count + 1,
                           last_failure := some "gates failed",
                           status := .pending } :=
  ⟨by decide, Or.inl rfl,
   log_retry_revives_terminal planWithDoneTask "task-001" "gates failed" taskDone
     (by decide) (Or.inl rfl)⟩

/- ═══════ Engine HITL-rejection branch (src/chickenhawk/chicken_hawk.py) ═══════ -/

/-- The methods defined on the `StateManager` class
(src/chickenhawk/core/state_manager.py), in source order. Note there is no
`mark_skipped`. -/
def state_manager_methods : List String :=
  ["__init__", "_load_or_create", "_load", "_save", "initialize_from_prd",
   "get_next_task", "get_task", "mark_complete", "mark_failed", "log_retry",
   "is_complete", "get_progress_percentage", "get_current_task_path",
   "get_summary"]

/-- Python runtime errors relevant to the modelled engine branch. -/
inductive PyError where
  | attributeError (attr : String)
deriving Repr, DecidableEq

/-- The HITL-rejection branch of `ChickenHawk.run` (chicken_hawk.py lines
171-174): on `HITLStatus.REJECTED` it logs "Task rejected by human -
skipping" and calls `self.state.mark_skipped(task.id)`. `StateManager`
defines no `mark_skipped` attribute (see `state_manager_methods`) and
`TaskStatus` has no "skipped" value, so Python attribute lookup raises
`AttributeError` before any state mutation; the branch never reaches
`continue`. -/
def handle_hitl_rejection (p : PRDState) (task_id : String) :
    Except PyError PRDState :=
  .error (.attributeError "mark_skipped")

/-- C2 (code bug): the engine's HITL-rejection branch cannot mark the task
skipped and proceed — `StateManager` has no `mark_skipped` method (and no
"skipped" status exists), so the branch raises `AttributeError` and never
yields a successor state; in particular it never marks the task failed
(nor anything else). -/
theorem hitl_rejection_attribute_error (p : PRDState) (task_id : String) :
    state_manager_methods.contains "mark_skipped" = false ∧
    (∀ s : TaskStatus, statusStr s ≠ "skipped") ∧
    handle_hitl_rejection p task_id = .error (.attributeError "mark_skipped") ∧
    ∀ q : PRDState, handle_hitl_rejection p task_id ≠ .ok q := by
  refine ⟨by decide, ?_, rfl, ?_⟩
  · intro s
    cases s <;> decide
  · intro q h
    exact Except.noConfusion h

/- ═══════════ HITLController (src/chickenhawk/core/hitl_controller.py) ═══════════ -/

/-- The `HITLReason` enumeration. -/
inductive HITLReason where
  | high_risk
  | major_change
  | cost_threshold
  | gate_failure
  | scheduled
  | explicit_request
deriving Repr, DecidableEq

/-- The `HITLStatus` enumeration. -/
inductive HITLStatus where
  | pending
  | approved
  | rejected
  | timeout
  | auto_approved
deriving Repr, DecidableEq

/-- Model of the `HITLCheckpoint` dataclass (the free-form `context`
payload is a string-to-string dict; timestamps are strings supplied by the
caller as "now"). -/
structure HITLCheckpoint where
  checkpoint_id : String
  task_id : String
  reason : HITLReason
  description : String
  context : List (String × String) := []
  status : HITLStatus := .pending
  created_at : String := ""
  resolved_at : Option String := none
  resolved_by : Option String := none
  notes : Option String := none
deriving Repr, DecidableEq

/-- Model of the `HITLController` object state. The two notifier
collaborators are external (their side effects are reported as
`NotificationEvent` values); `pending_checkpoints` is the active-pending
dict in insertion order. -/
structure HITLController where
  base_url : String := "http://localhost:8095"
  stationary : Bool := true
  pending_checkpoints : List (String × HITLCheckpoint) := []
  task_counter : ℤ := 0
  check_interval : ℤ := 5
deriving Repr, DecidableEq

/-- A notification attempt fired by `_notify` (delivery is best-effort and
irrelevant to the controller state machine; what matters is whether the
collaborator was invoked at all). -/
inductive NotificationEvent where
  | email (checkpoint_id : String)
  | webhook (checkpoint_id : String)
deriving Repr, DecidableEq

namespace HITLController

/-- Dict lookup in `pending_checkpoints`. -/
def dictGet (m : List (String × HITLCheckpoint)) (k : String) :
    Option HITLCheckpoint :=
  (m.find? (fun kv => kv.1 == k)).map (fun kv => kv.2)

/-- Dict insertion (`self.pending_checkpoints[key] = cp`): replaces an
existing key in place, else appends. -/
def dictSet (m : List (String × HITLCheckpoint)) (k : String)
    (v : HITLCheckpoint) : List (String × HITLCheckpoint) :=
  match m with
  | [] => [(k, v)]
  | (k0, v0) :: rest =>
      if k0 == k then (k, v) :: rest else (k0, v0) :: dictSet rest k v

/-- Python `del self.pending_checkpoints[key]` (keys are unique, so
removing every binding of the key models deletion). -/
def dictDelete (m : List (String × HITLCheckpoint)) (k : String) :
    List (String × HITLCheckpoint) :=
  m.filter (fun kv => !(kv.1 == k))

/-- In-place mutation of the checkpoint object stored under a key (Python
aliasing: the dict holds the same object the code mutates); keys absent
from the dict are untouched. -/
def dictReplace (m : List (String × HITLCheckpoint)) (k : String)
    (v : HITLCheckpoint) : List (String × HITLCheckpoint) :=
  m.map (fun kv => if kv.1 == k then (k, v) else kv)

/-- Model of `HITLController._notify`: when the human is away
(`stationary = False`) an email is sent via Resend; a webhook notification
is always attempted. -/
def notify (ctrl : HITLController) (cp : HITLCheckpoint) : List NotificationEvent :=
  (if ctrl.stationary then [] else [.email cp.checkpoint_id]) ++
  [.webhook cp.checkpoint_id]

/-- Model of `HITLController._wait_for_resolution`. The engine loop is
single-threaded (§5 of the design), so within one modelled call no
concurrent `resolve` runs and every poll observes the same
`pending_checkpoints`; the while-loop therefore returns at its first poll
when the entry is already gone (returning the local object's status) or
already non-pending, and otherwise the guard exhausts the
`timeout_minutes * 60` window and the code falls through to the timeout
branch (source lines 342-347), which stamps the local checkpoint object
TIMEOUT with a resolution note — WITHOUT removing it from
`pending_checkpoints`. The dict entry is the very object being stamped
(every call site awaits the checkpoint it just registered), modelled by
`dictReplace`. A zero-length window skips all polls and times out
directly. -/
def wait_for_resolution (ctrl : HITLController) (cp : HITLCheckpoint)
    (timeout_minutes : ℕ) (now : String) : HITLStatus × HITLController :=
  let timed_out : HITLCheckpoint :=
    { cp with status := .timeout, resolved_at := some now,
              notes := some ("Timed out after " ++ toString timeout_minutes
                              ++ " minutes") }
  if timeout_minutes * 60 = 0 then
    (.timeout,
     { ctrl with pending_checkpoints :=
         dictReplace ctrl.pending_checkpoints cp.checkpoint_id timed_out })
  else
    match dictGet ctrl.pending_checkpoints cp.checkpoint_id with
    | none => (cp.status, ctrl)
    | some current =>
        if current.status = .pending then
          (.timeout,
           { ctrl with pending_checkpoints :=
               dictReplace ctrl.pending_checkpoints cp.checkpoint_id timed_out })
        else
          (current.status, ctrl)

/-- Result of a `checkpoint` call: the returned status, the controller
state afterwards, and the notification attempts fired. -/
structure CheckpointCall where
  status : HITLStatus
  ctrl : HITLController
  notifications : List NotificationEvent
deriving Repr, DecidableEq

/-- Model of `HITLController.checkpoint`: builds a fresh checkpoint
(`fresh_id` stands for the generated `HITL-<uuid>` identifier); if the
reason is SCHEDULED and the auto-approve-low-risk flag is set, resolves it
AUTO_APPROVED immediately — without registering it and without notifying;
otherwise registers it in `pending_checkpoints`, fires notifications, and
either returns PENDING (non-blocking) or awaits resolution (blocking). -/
def checkpoint (ctrl : HITLController) (fresh_id task_id : String)
    (reason : HITLReason) (description : String)
    (context : List (String × String)) (blocking : Bool)
    (auto_approve_low_risk : Bool) (now : String) (timeout_minutes : ℕ) :
    CheckpointCall :=
  let cp : HITLCheckpoint :=
    { checkpoint_id := fresh_id, task_id := task_id, reason := reason,
      description := description, context := context, created_at := now }
  if reason == .scheduled && auto_approve_low_risk then
    -- the local object is stamped AUTO_APPROVED and only its status escapes
    { status := .auto_approved, ctrl := ctrl, notifications := [] }
  else
    let ctrl2 :=
      { ctrl with
        pending_checkpoints := dictSet ctrl.pending_checkpoints cp.checkpoint_id cp }
    let notifs := notify ctrl2 cp
    if !blocking then
      { status := .pending, ctrl := ctrl2, notifications := notifs }
    else
      let w := wait_for_resolution ctrl2 cp timeout_minutes now
      { status := w.1, ctrl := w.2, notifications := notifs }

/-- Model of `HITLController.resolve`: returns `none` (and changes
nothing) when the id is not pending; otherwise stamps the terminal status
and resolution metadata, deletes the entry from `pending_checkpoints`, and
returns the final record. -/
def resolve (ctrl : HITLController) (checkpoint_id : String) (approved : Bool)
    (notes : Option String) (resolved_by : String) (now : String) :
    Option HITLCheckpoint × HITLController :=
  match dictGet ctrl.pending_checkpoints checkpoint_id with
  | none => (none, ctrl)
  | some cp =>
      let cp := { cp with
        status := if approved then .approved else .rejected,
        resolved_at := some now, resolved_by := some resolved_by,
        notes := notes }
      (some cp,
       { ctrl with pending_checkpoints :=
           dictDelete ctrl.pending_checkpoints checkpoint_id })

end HITLController

namespace HITLController

/-- Deleting a key makes its lookup fail. -/
theorem dictGet_dictDelete (m : List (String × HITLCheckpoint)) (k : String) :
    dictGet (dictDelete m k) k = none := by
  induction m with
  | nil => rfl
  | cons kv rest ih =>
      by_cases hk : (kv.1 == k) = true
      · simpa [dictDelete, List.filter, hk] using ih
      · have hk' : (kv.1 == k) = false := by simpa using hk
        simpa [dictDelete, dictGet, List.filter, List.find?, hk'] using ih

/-- Mutating the object stored under a key is observed by lookup. -/
theorem dictGet_dictReplace (m : List (String × HITLCheckpoint)) (k : String)
    (v : HITLCheckpoint) :
    dictGet (dictReplace m k v) k = (dictGet m k).map (fun _ => v) := by
  induction m with
  | nil => rfl
  | cons kv rest ih =>
      by_cases hk : (kv.1 == k) = true
      · simp [dictReplace, dictGet, List.find?, hk]
      · have hk' : (kv.1 == k) = false := by simpa using hk
        simpa [dictReplace, dictGet, List.find?, hk'] using ih

end HITLController

/-- C8: `HITLController.checkpoint` called with reason SCHEDULED while the
auto-approve-low-risk flag is enabled returns AUTO_APPROVED immediately,
leaves the controller (in particular the active-pending dict) unchanged,
and invokes neither the email notifier nor the webhook notifier. -/
theorem checkpoint_scheduled_auto_approved (ctrl : HITLController)
    (fresh_id task_id description : String) (context : List (String × String))
    (blocking : Bool) (now : String) (timeout_minutes : ℕ) :
    (HITLController.checkpoint ctrl fresh_id task_id .scheduled description
        context blocking true now timeout_minutes).status = .auto_approved ∧
    (HITLController.checkpoint ctrl fresh_id task_id .scheduled description
        context blocking true now timeout_minutes).ctrl = ctrl ∧
    (HITLController.checkpoint ctrl fresh_id task_id .scheduled description
        context blocking true now timeout_minutes).ctrl.pending_checkpoints =
      ctrl.pending_checkpoints ∧
    (HITLController.checkpoint ctrl fresh_id task_id .scheduled description
        context blocking true now timeout_minutes).notifications = [] := by
  refine ⟨rfl, rfl, rfl, rfl⟩

/-- A checkpoint awaiting resolution that nobody ever resolves. -/
def cpStuck : HITLCheckpoint :=
  { checkpoint_id := "HITL-1A2B3C4D", task_id := "task-007",
    reason := .gate_failure,
    description := "Oracle gates failed after max retries",
    created_at := "t0" }

/-- Controller whose active-pending dict holds exactly `cpStuck`. -/
def ctrlStuck : HITLController :=
  { pending_checkpoints := [("HITL-1A2B3C4D", cpStuck)] }

/-- C4 counterexample: the blocking wait times out (HITLStatus becomes the
terminal TIMEOUT and is returned), yet after the call the checkpoint is
STILL present in the active-pending dict — stamped TIMEOUT but never
removed. The claim that every transition to a terminal status removes the
checkpoint from the active set is false on the timeout path. -/
theorem wait_timeout_leaves_pending_cx :
    (HITLController.wait_for_resolution ctrlStuck cpStuck 30 "t1").1 =
      .timeout ∧
    HITLController.dictGet
        (HITLController.wait_for_resolution ctrlStuck cpStuck 30 "t1").2.pending_checkpoints
        "HITL-1A2B3C4D" =
      some { cpStuck with
              status := .timeout
              resolved_at := some "t1"
              notes := some "Timed out after 30 minutes" } := by
  refine ⟨rfl, by decide⟩

/-- C4 amended: a checkpoint resolved explicitly via
`HITLController.resolve` becomes terminal (approved or rejected) and is
removed from the active-pending dict, and an auto-approved SCHEDULED
checkpoint is never added to it; but a checkpoint whose blocking wait
expires becomes terminal (TIMEOUT) while REMAINING in the active-pending
dict — the timeout path does not remove it. -/
theorem hitl_terminal_removal (ctrl : HITLController) (cid : String)
    (approved : Bool) (notes : Option String) (resolved_by now : String)
    (cp : HITLCheckpoint) (timeout_minutes : ℕ) :
    (∀ rcp ctrl2,
       HITLController.resolve ctrl cid approved notes resolved_by now =
         (some rcp, ctrl2) →
       rcp.status = (if approved then .approved else .rejected) ∧
       HITLController.dictGet ctrl2.pending_checkpoints cid = none) ∧
    (∀ fresh task_id descr context blocking,
       (HITLController.checkpoint ctrl fresh task_id .scheduled descr context
          blocking true now timeout_minutes).ctrl.pending_checkpoints =
         ctrl.pending_checkpoints) ∧
    (HITLController.dictGet ctrl.pending_checkpoints cp.checkpoint_id = some cp →
     cp.status = .pending → 0 < timeout_minutes →
     (HITLController.wait_for_resolution ctrl cp timeout_minutes now).1 =
       .timeout ∧
     HITLController.dictGet
         (HITLController.wait_for_resolution ctrl cp timeout_minutes
           now).2.pending_checkpoints
         cp.checkpoint_id ≠ none) := by
  refine ⟨?_, ?_, ?_⟩
  · intro rcp ctrl2 h
    unfold HITLController.resolve at h
    cases hd : HITLController.dictGet ctrl.pending_checkpoints cid with
    | none => rw [hd] at h; exact absurd (congrArg Prod.fst h) (by simp)
    | some cp0 =>
        rw [hd] at h
        obtain ⟨h1, h2⟩ := Prod.mk.injEq .. ▸ h
        constructor
        · rw [← Option.some.inj h1]
        · rw [← h2]
          exact HITLController.dictGet_dictDelete ctrl.pending_checkpoints cid
  · intro fresh task_id descr context blocking
    rfl
  · intro hget hpend htm
    have hne : ¬ (timeout_minutes * 60 = 0) := by omega
    unfold HITLController.wait_for_resolution
    rw [if_neg hne, hget]
    simp [hpend, HITLController.dictGet_dictReplace, hget]

/-- C4 amended witness: for the concretely stuck controller, the blocking
wait returns the terminal TIMEOUT while the checkpoint is still present in
the active-pending dict. -/
theorem hitl_terminal_removal_witness :
    (HITLController.wait_for_resolution ctrlStuck cpStuck 30 "t1").1 =
      .timeout ∧
    HITLController.dictGet
        (HITLController.wait_for_resolution ctrlStuck cpStuck 30
          "t1").2.pending_checkpoints
        cpStuck.checkpoint_id ≠ none :=
  (hitl_terminal_removal ctrlStuck "HITL-1A2B3C4D" true none "human" "t1"
      cpStuck 30).2.2 (by decide) rfl (by decide)
